import Mathlib

/-!
Verification of the mbed TLS AEAD cipher context
(`openvpn/mbedtls/crypto/cipheraead.hpp`, namespace `openvpn::MbedTLSCrypto`,
class `CipherContextAEAD`) against its specification.

The header contains two variants of the class.  The primary variant uses
per-algorithm native contexts (`mbedtls_gcm_context`, `mbedtls_chachapoly_context`)
with member-pointer dispatch (`aead_encrypt` / `aead_decrypt`); it is embedded
below as `CipherContextAEAD` with its operations `init`, `erase`, `encrypt`,
`decrypt`, `is_supported`, `cipher_type`, `check_initialized`, and the
per-cipher adapters `gcm_encrypt`, `gcm_decrypt`, `chachapoly_encrypt`,
`chachapoly_decrypt`.  The other variant's `decrypt` (the embedded-tag calling
convention built on `mbedtls_cipher_auth_decrypt_ext`) is embedded as
`decrypt_v1`.

Machine integers: `size_t` arithmetic is `Nat` with explicit reduction
modulo `2 ^ 64`; native status codes are `Int`.  Byte buffers are `List Nat`
(each element one byte).  C++ exceptions are modelled by `Except` /
error components in the result; since a throwing method still leaves its
mutations on the object, `init` returns the mutated state together with the
error.  Each lifecycle operation additionally reports the list of native
mbed TLS calls it performed, so that claims about resource acquisition and
release order can be stated.
-/

deriving instance DecidableEq for Except

namespace MbedTLSCrypto

/-- `size_t` modulus: the wrap-around of unsigned 64-bit arithmetic. -/
def SIZE_T_MOD : Nat := 2 ^ 64

/-- `IV_LEN = 12` from the source's constants enum. -/
def IV_LEN : Nat := 12

/-- `AUTH_TAG_LEN = 16` from the source's constants enum. -/
def AUTH_TAG_LEN : Nat := 16

/-- `CryptoAlgs::Type`: the algorithm catalog values relevant here — the four
AEAD members handled by `cipher_type`, plus representative non-AEAD members
(`NONE`, `AES_256_CBC`) that fall into `cipher_type`'s `default` case. -/
inductive CryptoAlg where
  | AES_128_GCM
  | AES_192_GCM
  | AES_256_GCM
  | CHACHA20_POLY1305
  | NONE
  | AES_256_CBC
deriving DecidableEq, Repr

/-- `mbedtls_cipher_id_t` values used by the source. -/
inductive CipherId where
  | AES
  | CHACHA20
  | ID_NONE
deriving DecidableEq, Repr

/-- The error kinds thrown by the source (`mbedtls_aead_error` with its
distinct messages).  `notUsable` is the spec's `UnsupportedAlgorithm`,
`insufficientKeyMaterial` its `InsufficientKeyMaterial`, `gcmSetkeyFailed` /
`chachapolySetkeyFailed` its `BackendInitError`, `uninitialized` its
`NotInitialized`, `tagMustBeNull` its `InvalidArgument` (conflicting tag
conventions), `encryptFailed` its `EncryptionFailed`. -/
inductive MbedErr where
  | notUsable (alg : CryptoAlg)
  | insufficientKeyMaterial
  | gcmSetkeyFailed (status : Int)
  | chachapolySetkeyFailed (status : Int)
  | uninitialized
  | tagMustBeNull
  | encryptFailed (status : Int)
  | undefinedDispatch
deriving DecidableEq, Repr

/-- The native mbed TLS calls the wrapper can issue, recorded as traces. -/
inductive NativeCall where
  | gcm_init_call
  | gcm_setkey_call
  | gcm_free_call
  | chachapoly_init_call
  | chachapoly_setkey_call
  | chachapoly_free_call
  | gcm_crypt_and_tag_call
  | gcm_auth_decrypt_call
  | chachapoly_encrypt_and_tag_call
  | chachapoly_auth_decrypt_call
deriving DecidableEq, Repr

/-- Status codes `mbedtls/gcm.h` and `mbedtls/chachapoly.h` define. -/
def MBEDTLS_ERR_GCM_AUTH_FAILED : Int := -18

def MBEDTLS_ERR_GCM_BAD_INPUT : Int := -20

def MBEDTLS_ERR_CHACHAPOLY_AUTH_FAILED : Int := -86

def MBEDTLS_ERR_CHACHAPOLY_BAD_STATE : Int := -84

/-- Outcomes of the native key-installation calls.  The mbed TLS library is an
external collaborator: whether `mbedtls_gcm_setkey` / `mbedtls_chachapoly_setkey`
succeeds is an input to the model (hardware/allocation failures), so claims can
quantify over both outcomes.  `0` is success; the library reports failure with
a negative status. -/
structure NativeEnv where
  gcm_setkey_status : Int := 0
  chachapoly_setkey_status : Int := 0
deriving DecidableEq, Repr

/-- The all-success native environment. -/
def env0 : NativeEnv := {}

/-- State of a `mbedtls_gcm_context`: whether the context is live (between
`mbedtls_gcm_init` and `mbedtls_gcm_free`) and which key `mbedtls_gcm_setkey`
installed. -/
structure GcmCtx where
  live : Bool := false
  key : Option (CipherId × List Nat) := none
deriving DecidableEq, Repr

/-- State of a `mbedtls_chachapoly_context`. -/
structure ChachapolyCtx where
  live : Bool := false
  key : Option (List Nat) := none
deriving DecidableEq, Repr

/-- Modelled from the spec: `mbedtls_gcm_init` prepares the context (acquires
the native resource that `mbedtls_gcm_free` releases) and holds no key yet. -/
def mbedtls_gcm_init (_c : GcmCtx) : GcmCtx :=
  { live := true, key := none }

/-- Modelled from the spec: `mbedtls_gcm_setkey` installs the first
`keybits / 8` key bytes on success and returns a negative status on failure
(outcome supplied by the external environment). -/
def mbedtls_gcm_setkey (env : NativeEnv) (c : GcmCtx) (cid : CipherId)
    (key : List Nat) (keybits : Nat) : Int × GcmCtx :=
  if env.gcm_setkey_status < 0 then
    (env.gcm_setkey_status, c)
  else
    (0, { c with key := some (cid, key.take (keybits / 8)) })

/-- Modelled from the spec: `mbedtls_gcm_free` releases the native resource. -/
def mbedtls_gcm_free (_c : GcmCtx) : GcmCtx :=
  { live := false, key := none }

/-- Modelled from the spec: `mbedtls_chachapoly_init`. -/
def mbedtls_chachapoly_init (_c : ChachapolyCtx) : ChachapolyCtx :=
  { live := true, key := none }

/-- Modelled from the spec: `mbedtls_chachapoly_setkey` installs the 32-byte
key on success, with the outcome supplied by the external environment. -/
def mbedtls_chachapoly_setkey (env : NativeEnv) (c : ChachapolyCtx)
    (key : List Nat) : Int × ChachapolyCtx :=
  if env.chachapoly_setkey_status < 0 then
    (env.chachapoly_setkey_status, c)
  else
    (0, { c with key := some (key.take 32) })

/-- Modelled from the spec: `mbedtls_chachapoly_free`. -/
def mbedtls_chachapoly_free (_c : ChachapolyCtx) : ChachapolyCtx :=
  { live := false, key := none }

/-!
Ideal model of the AEAD primitives themselves (mbed TLS internals, external to
this repository).  Modelled from the spec: both AES-GCM and ChaCha20-Poly1305
are stream ciphers (ciphertext has the length of the plaintext and is the
plaintext XOR a keystream determined by cipher, key and IV), and the 16-byte
authentication tag is computed over the ciphertext and the associated data and
verified before any plaintext is released.  The keystream function below is a
concrete stand-in (no theorem depends on its values, only on XOR being an
involution); the tag is idealized as a collision-free MAC: a number that
determines cipher, key, IV, ciphertext and associated data, which makes the
spec's single-bit-forgery property provable.
-/

/-- A byte list read as a base-256 number (each byte reduced mod 256). -/
def bytesToNat : List Nat → Nat
  | [] => 0
  | b :: t => b % 256 + 256 * bytesToNat t

/-- Numeric code of a cipher id, used to separate the two tag families. -/
def cidNat : CipherId → Nat
  | .AES => 0
  | .CHACHA20 => 1
  | .ID_NONE => 2

/-- Modelled from the spec: one keystream byte for position `i`. -/
def keystream (cid : CipherId) (key iv : List Nat) (i : Nat) : Nat :=
  (cidNat cid + bytesToNat key + 7 * bytesToNat iv + 13 * i + i * i) % 256

/-- The keystream prefix of length `n`. -/
def ksList (cid : CipherId) (key iv : List Nat) (n : Nat) : List Nat :=
  (List.range n).map (keystream cid key iv)

/-- XOR of a data buffer with the keystream (encryption = decryption for a
stream cipher). -/
def streamXor (cid : CipherId) (key iv data : List Nat) : List Nat :=
  List.zipWith (fun b s => b ^^^ s) data (ksList cid key iv data.length)

/-- Modelled from the spec: the ideal 16-byte authentication tag over
ciphertext and associated data, keyed by cipher, key and IV.  Idealized as an
injective encoding so that distinct (ciphertext, associated data) pairs under
the same key and IV always produce distinct tags. -/
def tagFun (cid : CipherId) (key iv ct ad : List Nat) : Nat :=
  bytesToNat ct +
    256 ^ ct.length *
      (bytesToNat ad +
        256 ^ ad.length *
          (1 + cidNat cid + 3 * (bytesToNat key + 256 ^ key.length * bytesToNat iv)))

/-- Modelled from the spec: `mbedtls_gcm_crypt_and_tag` in encrypt mode —
produce the ciphertext and the tag; fails with `BAD_INPUT` when no key is
installed. -/
def mbedtls_gcm_crypt_and_tag (c : GcmCtx) (input iv ad : List Nat) :
    Int × List Nat × Nat :=
  match c.key with
  | none => (MBEDTLS_ERR_GCM_BAD_INPUT, [], 0)
  | some (cid, key) =>
      let ct := streamXor cid key iv input
      (0, ct, tagFun cid key iv ct ad)

/-- Modelled from the spec: `mbedtls_gcm_auth_decrypt` — verify the tag over
ciphertext and associated data first; only on a match decrypt and release the
plaintext, otherwise report `MBEDTLS_ERR_GCM_AUTH_FAILED` and release
nothing. -/
def mbedtls_gcm_auth_decrypt (c : GcmCtx) (input iv : List Nat) (tag : Nat)
    (ad : List Nat) : Int × Option (List Nat) :=
  match c.key with
  | none => (MBEDTLS_ERR_GCM_BAD_INPUT, none)
  | some (cid, key) =>
      if tag = tagFun cid key iv input ad then
        (0, some (streamXor cid key iv input))
      else
        (MBEDTLS_ERR_GCM_AUTH_FAILED, none)

/-- Modelled from the spec: `mbedtls_chachapoly_encrypt_and_tag`. -/
def mbedtls_chachapoly_encrypt_and_tag (c : ChachapolyCtx)
    (input iv ad : List Nat) : Int × List Nat × Nat :=
  match c.key with
  | none => (MBEDTLS_ERR_CHACHAPOLY_BAD_STATE, [], 0)
  | some key =>
      let ct := streamXor .CHACHA20 key iv input
      (0, ct, tagFun .CHACHA20 key iv ct ad)

/-- Modelled from the spec: `mbedtls_chachapoly_auth_decrypt`. -/
def mbedtls_chachapoly_auth_decrypt (c : ChachapolyCtx) (input iv : List Nat)
    (tag : Nat) (ad : List Nat) : Int × Option (List Nat) :=
  match c.key with
  | none => (MBEDTLS_ERR_CHACHAPOLY_BAD_STATE, none)
  | some key =>
      if tag = tagFun .CHACHA20 key iv input ad then
        (0, some (streamXor .CHACHA20 key iv input))
      else
        (MBEDTLS_ERR_CHACHAPOLY_AUTH_FAILED, none)

/-- Which adapter pair the member pointers `aead_encrypt` / `aead_decrypt`
were assigned (the GCM pair or the ChaCha20-Poly1305 pair); `none` models the
default-constructed (unset) member pointers. -/
inductive Dispatch where
  | gcm
  | chachapoly
deriving DecidableEq, Repr

/-- The fields of `CipherContextAEAD`: the `initialized` flag, the two
mutually exclusive native contexts, the algorithm recorded by `init`, and the
member-pointer dispatch.  Defaults are the freshly constructed object
(`initialized(false)`, member pointers unset; `crypto_alg` is indeterminate in
C++ and defaulted to `NONE` here). -/
structure CipherContextAEAD where
  initialized : Bool := false
  gcm_ctx : GcmCtx := {}
  chachapoly_ctx : ChachapolyCtx := {}
  crypto_alg : CryptoAlg := .NONE
  aead_dispatch : Option Dispatch := none
deriving DecidableEq, Repr

/-- A freshly constructed `CipherContextAEAD()`. -/
def freshCtx : CipherContextAEAD := {}

/-- `cipher_type(alg, keysize)`: maps the four AEAD catalog members to their
native cipher id and required key size; the `default` case throws
`mbedtls_aead_error(name(alg) + ": not usable")`. -/
def cipher_type (alg : CryptoAlg) : Except MbedErr (CipherId × Nat) :=
  match alg with
  | .AES_128_GCM => .ok (.AES, 16)
  | .AES_192_GCM => .ok (.AES, 24)
  | .AES_256_GCM => .ok (.AES, 32)
  | .CHACHA20_POLY1305 => .ok (.CHACHA20, 32)
  | a => .error (.notUsable a)

/-- `is_supported(libctx, alg)`: calls `cipher_type` (whose thrown error
propagates) and compares the returned id with `MBEDTLS_CIPHER_ID_NONE`. -/
def is_supported (alg : CryptoAlg) : Except MbedErr Bool :=
  match cipher_type alg with
  | .error e => .error e
  | .ok (cid, _) => .ok (decide (cid ≠ CipherId.ID_NONE))

/-- `erase()`, with the trace of native calls it makes: frees the backend
selected by `crypto_alg` when `initialized`, otherwise does nothing. -/
def eraseTr (c : CipherContextAEAD) : CipherContextAEAD × List NativeCall :=
  if c.initialized then
    match c.crypto_alg with
    | .AES_128_GCM | .AES_192_GCM | .AES_256_GCM =>
        ({ c with gcm_ctx := mbedtls_gcm_free c.gcm_ctx, initialized := false },
         [.gcm_free_call])
    | .CHACHA20_POLY1305 =>
        ({ c with chachapoly_ctx := mbedtls_chachapoly_free c.chachapoly_ctx,
                  initialized := false },
         [.chachapoly_free_call])
    | _ => ({ c with initialized := false }, [])
  else
    (c, [])

/-- `erase()` as a state transformer. -/
def erase (c : CipherContextAEAD) : CipherContextAEAD :=
  (eraseTr c).1

/-- The destructor `~CipherContextAEAD()`: its body is `erase();`. -/
def destruct (c : CipherContextAEAD) : CipherContextAEAD :=
  erase c

/-- Result of `init`: the object's state after the call (also when the call
threw — a C++ throw leaves prior mutations in place), the thrown error if any,
and the native calls made, in order. -/
structure InitResult where
  ctx : CipherContextAEAD
  err : Option MbedErr
  trace : List NativeCall
deriving DecidableEq, Repr

/-- The body of `init(libctx, alg, key, keysize, mode)` after its initial
`erase()` call: record `crypto_alg = alg`, resolve `cipher_type` (throwing for
unmapped algorithms), the dead `cid == MBEDTLS_CIPHER_ID_NONE` re-check, the
`ckeysz > keysize` key-material check, then construct the backend selected by
the algorithm (`mbedtls_gcm_init` + `mbedtls_gcm_setkey`, or
`mbedtls_chachapoly_init` + `mbedtls_chachapoly_setkey`), assign the member
pointers and set `initialized = true`. -/
def initCore (env : NativeEnv) (alg : CryptoAlg) (key : List Nat)
    (keysize : Nat) (c0 : CipherContextAEAD) : InitResult :=
  let c1 := { c0 with crypto_alg := alg }
  match cipher_type alg with
  | .error err => ⟨c1, some err, []⟩
  | .ok (cid, ckeysz) =>
    if cid = CipherId.ID_NONE then
      ⟨c1, some (.notUsable alg), []⟩
    else if ckeysz > keysize then
      ⟨c1, some .insufficientKeyMaterial, []⟩
    else
      match alg with
      | .AES_128_GCM | .AES_192_GCM | .AES_256_GCM =>
        let g0 := mbedtls_gcm_init c1.gcm_ctx
        let r := mbedtls_gcm_setkey env g0 cid key (ckeysz * 8)
        let c2 := { c1 with gcm_ctx := r.2 }
        let tr : List NativeCall := [.gcm_init_call, .gcm_setkey_call]
        if r.1 < 0 then
          ⟨c2, some (.gcmSetkeyFailed r.1), tr⟩
        else
          ⟨{ c2 with aead_dispatch := some .gcm, initialized := true }, none, tr⟩
      | .CHACHA20_POLY1305 =>
        let p0 := mbedtls_chachapoly_init c1.chachapoly_ctx
        let r := mbedtls_chachapoly_setkey env p0 key
        let c2 := { c1 with chachapoly_ctx := r.2 }
        let tr : List NativeCall := [.chachapoly_init_call, .chachapoly_setkey_call]
        if r.1 < 0 then
          ⟨c2, some (.chachapolySetkeyFailed r.1), tr⟩
        else
          ⟨{ c2 with aead_dispatch := some .chachapoly, initialized := true }, none, tr⟩
      | _ => ⟨c1, some (.notUsable alg), []⟩

/-- `init(libctx, alg, key, keysize, mode)`: `erase()` first, then the rest of
the body (`initCore`).  The state after the call (also when it threw), the
thrown error if any, and the native calls in order.  The unused `mode`
parameter is kept from the source signature. -/
def init (env : NativeEnv) (alg : CryptoAlg) (key : List Nat) (keysize : Nat)
    (_mode : Int) (c : CipherContextAEAD) : InitResult :=
  let e := eraseTr c
  let r := initCore env alg key keysize e.1
  ⟨r.ctx, r.err, e.2 ++ r.trace⟩

/-- `check_initialized()`: throws `mbedtls_aead_error("uninitialized")` when
the flag is unset. -/
def check_initialized (c : CipherContextAEAD) : Except MbedErr Unit :=
  if c.initialized then .ok () else .error .uninitialized

/-- `is_initialized()`. -/
def is_initialized (c : CipherContextAEAD) : Bool :=
  c.initialized

/-- The adapter `gcm_encrypt`: calls `mbedtls_gcm_crypt_and_tag` in encrypt
mode and throws `EncryptionFailed` on a nonzero status; on success the
ciphertext (same length as the input) and the separate tag. -/
def gcm_encrypt (c : CipherContextAEAD) (input iv ad : List Nat) :
    Except MbedErr (List Nat × Nat) × List NativeCall :=
  let r := mbedtls_gcm_crypt_and_tag c.gcm_ctx input iv ad
  if r.1 ≠ 0 then
    (.error (.encryptFailed r.1), [.gcm_crypt_and_tag_call])
  else
    (.ok r.2, [.gcm_crypt_and_tag_call])

/-- The adapter `gcm_decrypt`: calls `mbedtls_gcm_auth_decrypt` and returns
`status == 0`, together with the plaintext the native call released (none on
authentication failure). -/
def gcm_decrypt (c : CipherContextAEAD) (input : List Nat) (tag : Nat)
    (iv ad : List Nat) : (Bool × Option (List Nat)) × List NativeCall :=
  let r := mbedtls_gcm_auth_decrypt c.gcm_ctx input iv tag ad
  ((r.1 == 0, r.2), [.gcm_auth_decrypt_call])

/-- The adapter `chachapoly_encrypt`. -/
def chachapoly_encrypt (c : CipherContextAEAD) (input iv ad : List Nat) :
    Except MbedErr (List Nat × Nat) × List NativeCall :=
  let r := mbedtls_chachapoly_encrypt_and_tag c.chachapoly_ctx input iv ad
  if r.1 ≠ 0 then
    (.error (.encryptFailed r.1), [.chachapoly_encrypt_and_tag_call])
  else
    (.ok r.2, [.chachapoly_encrypt_and_tag_call])

/-- The adapter `chachapoly_decrypt`. -/
def chachapoly_decrypt (c : CipherContextAEAD) (input : List Nat) (tag : Nat)
    (iv ad : List Nat) : (Bool × Option (List Nat)) × List NativeCall :=
  let r := mbedtls_chachapoly_auth_decrypt c.chachapoly_ctx input iv tag ad
  ((r.1 == 0, r.2), [.chachapoly_auth_decrypt_call])

/-- `encrypt(input, output, length, iv, tag, ad, ad_len)`:
`check_initialized()` then the call through the `aead_encrypt` member pointer.
Result: ciphertext and tag (the output buffers), or the thrown error; plus the
native-call trace.  Calling an unset member pointer is undefined behavior,
modelled as a distinguished error. -/
def encrypt (c : CipherContextAEAD) (input iv ad : List Nat) :
    Except MbedErr (List Nat × Nat) × List NativeCall :=
  match check_initialized c with
  | .error e => (.error e, [])
  | .ok _ =>
    match c.aead_dispatch with
    | some .gcm => gcm_encrypt c input iv ad
    | some .chachapoly => chachapoly_encrypt c input iv ad
    | none => (.error .undefinedDispatch, [])

/-- `decrypt(input, output, length, iv, tag, ad, ad_len)` (the dispatching
variant): `check_initialized()` then the call through the `aead_decrypt`
member pointer; the adapters take the tag as a separate argument.  Result: the
`bool` the source returns paired with the plaintext the native call released,
or the thrown error; plus the native-call trace. -/
def decrypt (c : CipherContextAEAD) (input : List Nat) (tag : Nat)
    (iv ad : List Nat) :
    Except MbedErr (Bool × Option (List Nat)) × List NativeCall :=
  match check_initialized c with
  | .error e => (.error e, [])
  | .ok _ =>
    match c.aead_dispatch with
    | some .gcm =>
        let r := gcm_decrypt c input tag iv ad
        (.ok r.1, r.2)
    | some .chachapoly =>
        let r := chachapoly_decrypt c input tag iv ad
        (.ok r.1, r.2)
    | none => (.error .undefinedDispatch, [])

/-!
The other variant of the class in the header: its `decrypt` takes the tag
embedded at the end of `input` (`length` includes the 16-byte tag) and is
built on `mbedtls_cipher_auth_decrypt_ext`.
-/

/-- The state this variant's `decrypt` reads: the `initialized` flag. -/
structure V1Ctx where
  initialized : Bool := false
deriving DecidableEq, Repr

/-- Outcome of the native `mbedtls_cipher_auth_decrypt_ext` call (external to
this repository): the status it returns and the output length it reports
through `olen`. -/
structure V1Env where
  status : Int := 0
  olen : Nat := 0
deriving DecidableEq, Repr

/-- The arguments the wrapper passes to `mbedtls_cipher_auth_decrypt_ext`
that the claims constrain: `iv_len`, the input length `ilen`, the output
buffer capacity `output_size` (= `length - AUTH_TAG_LEN` in `size_t`
arithmetic), and `tag_len`. -/
structure V1NativeArgs where
  iv_len : Nat
  ilen : Nat
  output_size : Nat
  tag_len : Nat
deriving DecidableEq, Repr

/-- `size_t` subtraction `a - b` (for `a, b < 2 ^ 64`): wraps modulo
`2 ^ 64`. -/
def size_sub (a b : Nat) : Nat :=
  (a + SIZE_T_MOD - b) % SIZE_T_MOD

/-- The embedded-tag `decrypt(input, output, length, iv, tag, ad, ad_len)`:
`check_initialized()`; throws `"tag must be null for aead decrypt"` when a
separate `tag` is supplied; otherwise calls
`mbedtls_cipher_auth_decrypt_ext(&ctx, iv, IV_LEN, ad, ad_len, input, length,
output, length - AUTH_TAG_LEN, &olen, AUTH_TAG_LEN)` and returns
`(olen == length - AUTH_TAG_LEN) && (status == 0)` together with the argument
record of the native call. -/
def decrypt_v1 (env : V1Env) (c : V1Ctx) (_input : List Nat) (length : Nat)
    (_iv : List Nat) (tag : Option (List Nat)) (_ad : List Nat) :
    Except MbedErr (Bool × V1NativeArgs) :=
  if ¬c.initialized then
    .error .uninitialized
  else if tag ≠ none then
    .error .tagMustBeNull
  else
    let args : V1NativeArgs :=
      ⟨IV_LEN, length, size_sub length AUTH_TAG_LEN, AUTH_TAG_LEN⟩
    .ok ((env.olen == size_sub length AUTH_TAG_LEN) && (env.status == 0), args)

/-!
Helper lemmas: XOR involution for the stream cipher, base-256 injectivity for
the ideal tag, and single-bit flips.
-/

/-- Flip bit `j` of the byte at position `i` (bitwise XOR with `2 ^ j`). -/
def flipByte (l : List Nat) (i j : Nat) : List Nat :=
  l.set i (l.getD i 0 ^^^ 2 ^ j)

/-- Flip bit `j` of a number. -/
def flipNat (t j : Nat) : Nat :=
  t ^^^ 2 ^ j

theorem xor_self_eq_iff {a b : Nat} : a ^^^ b = a ↔ b = 0 := by
  constructor
  · intro h
    have h2 : a ^^^ (a ^^^ b) = a ^^^ a := by rw [h]
    simpa [← Nat.xor_assoc] using h2
  · intro h
    simp [h]

theorem flipNat_ne (t j : Nat) : flipNat t j ≠ t := by
  unfold flipNat
  intro h
  have hb := xor_self_eq_iff.mp h
  have hp : (0 : Nat) < 2 ^ j := Nat.pos_pow_of_pos j (by norm_num)
  omega

theorem getD_set_self (l : List Nat) (i : Nat) (a : Nat) (h : i < l.length) :
    (l.set i a).getD i 0 = a := by
  induction l generalizing i with
  | nil => simp at h
  | cons x t ih =>
      cases i with
      | zero => simp [List.set]
      | succ n =>
          simp only [List.set, List.getD, List.getElem?_cons_succ] at *
          exact ih n (by simpa using h)

theorem flipByte_ne (l : List Nat) (i j : Nat) (h : i < l.length) :
    flipByte l i j ≠ l := by
  unfold flipByte
  intro he
  have h1 : (l.set i (l.getD i 0 ^^^ 2 ^ j)).getD i 0 = l.getD i 0 ^^^ 2 ^ j :=
    getD_set_self l i _ h
  rw [he] at h1
  have hb := xor_self_eq_iff.mp h1.symm
  have hp : (0 : Nat) < 2 ^ j := Nat.pos_pow_of_pos j (by norm_num)
  omega

theorem flipByte_length (l : List Nat) (i j : Nat) :
    (flipByte l i j).length = l.length := by
  simp [flipByte]

theorem xor_lt_256 {a b : Nat} (ha : a < 256) (hb : b < 256) : a ^^^ b < 256 := by
  have h := Nat.bitwise_lt_two_pow (f := bne) (n := 8)
    (by simpa using ha) (by simpa using hb)
  simpa [HXor.hXor, Xor.xor, Nat.xor] using h

theorem getD_lt_256 : ∀ (l : List Nat) (i : Nat), (∀ b ∈ l, b < 256) →
    l.getD i 0 < 256 := by
  intro l
  induction l with
  | nil => intro i _; simp [List.getD]
  | cons b t ih =>
      intro i h
      cases i with
      | zero => simpa using h b (by simp)
      | succ n =>
          simp only [List.getD, List.getElem?_cons_succ]
          exact ih n (fun y hy => h y (by simp [hy]))

theorem flipByte_bytes_lt (l : List Nat) (i j : Nat) (hj : j < 8)
    (hl : ∀ b ∈ l, b < 256) : ∀ x ∈ flipByte l i j, x < 256 := by
  intro x hx
  unfold flipByte at hx
  rcases List.mem_or_eq_of_mem_set hx with h | h
  · exact hl x h
  · subst h
    have h2 : (2 : Nat) ^ j < 256 := by
      calc (2 : Nat) ^ j < 2 ^ 8 := Nat.pow_lt_pow_right (by norm_num) hj
        _ = 256 := by norm_num
    exact xor_lt_256 (getD_lt_256 l i hl) h2

/-- The state a successful GCM-family `init` from a fresh context produces:
both native contexts start clean, the GCM context is live and holds the first
`n` key bytes, and the member pointers select the GCM adapters. -/
def gcmState (alg : CryptoAlg) (key : List Nat) (n : Nat) : CipherContextAEAD :=
  { initialized := true,
    gcm_ctx := { live := true, key := some (.AES, key.take n) },
    chachapoly_ctx := {},
    crypto_alg := alg,
    aead_dispatch := some .gcm }

/-- The state a successful ChaCha20-Poly1305 `init` from a fresh context
produces. -/
def chachaState (key : List Nat) : CipherContextAEAD :=
  { initialized := true,
    gcm_ctx := {},
    chachapoly_ctx := { live := true, key := some (key.take 32) },
    crypto_alg := .CHACHA20_POLY1305,
    aead_dispatch := some .chachapoly }

theorem init_fresh_ok_cases (env : NativeEnv) (alg : CryptoAlg)
    (key : List Nat) (ks : Nat) (mode : Int) (s : CipherContextAEAD)
    (tr : List NativeCall)
    (h : init env alg key ks mode freshCtx = ⟨s, none, tr⟩) :
    (alg = .AES_128_GCM ∧ 16 ≤ ks ∧ ¬env.gcm_setkey_status < 0 ∧
        s = gcmState alg key 16 ∧ tr = [.gcm_init_call, .gcm_setkey_call]) ∨
    (alg = .AES_192_GCM ∧ 24 ≤ ks ∧ ¬env.gcm_setkey_status < 0 ∧
        s = gcmState alg key 24 ∧ tr = [.gcm_init_call, .gcm_setkey_call]) ∨
    (alg = .AES_256_GCM ∧ 32 ≤ ks ∧ ¬env.gcm_setkey_status < 0 ∧
        s = gcmState alg key 32 ∧ tr = [.gcm_init_call, .gcm_setkey_call]) ∨
    (alg = .CHACHA20_POLY1305 ∧ 32 ≤ ks ∧ ¬env.chachapoly_setkey_status < 0 ∧
        s = chachaState key ∧
        tr = [.chachapoly_init_call, .chachapoly_setkey_call]) := by
  cases alg <;>
    simp only [init, initCore, eraseTr, freshCtx, cipher_type,
      mbedtls_gcm_init, mbedtls_gcm_setkey, mbedtls_chachapoly_init,
      mbedtls_chachapoly_setkey, gcmState, chachaState] at h ⊢
  case AES_128_GCM =>
    by_cases hst : env.gcm_setkey_status < 0 <;>
      by_cases hks : 16 > ks <;>
        simp_all [InitResult.mk.injEq]
  case AES_192_GCM =>
    by_cases hst : env.gcm_setkey_status < 0 <;>
      by_cases hks : 24 > ks <;>
        simp_all [InitResult.mk.injEq]
  case AES_256_GCM =>
    by_cases hst : env.gcm_setkey_status < 0 <;>
      by_cases hks : 32 > ks <;>
        simp_all [InitResult.mk.injEq]
  case CHACHA20_POLY1305 =>
    by_cases hst : env.chachapoly_setkey_status < 0 <;>
      by_cases hks : 32 > ks <;>
        simp_all [InitResult.mk.injEq]
  case NONE => simp_all
  case AES_256_CBC => simp_all

theorem zipWith_xor_cancel : ∀ (d ks : List Nat),
    List.zipWith (fun b s => b ^^^ s) (List.zipWith (fun b s => b ^^^ s) d ks) ks
      = List.take ks.length d := by
  intro d
  induction d with
  | nil => intro ks; simp
  | cons x t ih =>
      intro ks
      cases ks with
      | nil => simp
      | cons s ks' => simp [Nat.xor_cancel_right, ih ks']

theorem streamXor_length (cid : CipherId) (key iv d : List Nat) :
    (streamXor cid key iv d).length = d.length := by
  simp [streamXor, ksList]

theorem streamXor_streamXor (cid : CipherId) (key iv d : List Nat) :
    streamXor cid key iv (streamXor cid key iv d) = d := by
  rw [streamXor, streamXor_length, streamXor, zipWith_xor_cancel]
  simp [ksList]

theorem keystream_lt (cid : CipherId) (key iv : List Nat) (i : Nat) :
    keystream cid key iv i < 256 := by
  unfold keystream
  exact Nat.mod_lt _ (by norm_num)

theorem zipWith_xor_lt : ∀ (d ks : List Nat), (∀ b ∈ d, b < 256) →
    (∀ s ∈ ks, s < 256) →
    ∀ x ∈ List.zipWith (fun b s => b ^^^ s) d ks, x < 256 := by
  intro d
  induction d with
  | nil => intro ks _ _ x hx; simp at hx
  | cons b t ih =>
      intro ks hd hks x hx
      cases ks with
      | nil => simp at hx
      | cons s ks' =>
          simp only [List.zipWith_cons_cons, List.mem_cons] at hx
          rcases hx with h | h
          · subst h
            exact xor_lt_256 (hd b (by simp)) (hks s (by simp))
          · exact ih ks' (fun y hy => hd y (by simp [hy]))
              (fun y hy => hks y (by simp [hy])) x h

theorem bytesToNat_inj : ∀ (l1 l2 : List Nat), l1.length = l2.length →
    (∀ b ∈ l1, b < 256) → (∀ b ∈ l2, b < 256) →
    bytesToNat l1 = bytesToNat l2 → l1 = l2 := by
  intro l1
  induction l1 with
  | nil =>
      intro l2 hlen _ _ _
      cases l2 with
      | nil => rfl
      | cons b t => simp at hlen
  | cons b t ih =>
      intro l2 hlen h1 h2 heq
      cases l2 with
      | nil => simp at hlen
      | cons b' t' =>
          simp only [bytesToNat] at heq
          have hb : b < 256 := h1 b (by simp)
          have hb' : b' < 256 := h2 b' (by simp)
          rw [Nat.mod_eq_of_lt hb, Nat.mod_eq_of_lt hb'] at heq
          have hbe : b = b' := by omega
          have hte : bytesToNat t = bytesToNat t' := by omega
          have := ih t' (by simpa using hlen)
            (fun y hy => h1 y (by simp [hy]))
            (fun y hy => h2 y (by simp [hy])) hte
          rw [hbe, this]

theorem tagFun_ne_of_ct_ne (cid : CipherId) (key iv ct1 ct2 ad : List Nat)
    (hlen : ct1.length = ct2.length)
    (h1 : ∀ b ∈ ct1, b < 256) (h2 : ∀ b ∈ ct2, b < 256)
    (hne : ct1 ≠ ct2) :
    tagFun cid key iv ct1 ad ≠ tagFun cid key iv ct2 ad := by
  intro he
  unfold tagFun at he
  rw [hlen] at he
  have : bytesToNat ct1 = bytesToNat ct2 := by omega
  exact hne (bytesToNat_inj ct1 ct2 hlen h1 h2 this)

theorem tagFun_ne_of_ad_ne (cid : CipherId) (key iv ct ad1 ad2 : List Nat)
    (hlen : ad1.length = ad2.length)
    (h1 : ∀ b ∈ ad1, b < 256) (h2 : ∀ b ∈ ad2, b < 256)
    (hne : ad1 ≠ ad2) :
    tagFun cid key iv ct ad1 ≠ tagFun cid key iv ct ad2 := by
  intro he
  unfold tagFun at he
  rw [hlen] at he
  have hM : 0 < 256 ^ ct.length := Nat.pos_pow_of_pos _ (by norm_num)
  have hN : 0 < 256 ^ ad2.length := Nat.pos_pow_of_pos _ (by norm_num)
  have hX : bytesToNat ad1 = bytesToNat ad2 := by
    have h3 := Nat.add_left_cancel he
    have h4 := Nat.eq_of_mul_eq_mul_left hM h3
    omega
  exact hne (bytesToNat_inj ad1 ad2 hlen h1 h2 hX)

theorem streamXor_bytes_lt (cid : CipherId) (key iv d : List Nat)
    (hd : ∀ b ∈ d, b < 256) : ∀ x ∈ streamXor cid key iv d, x < 256 := by
  unfold streamXor
  apply zipWith_xor_lt d _ hd
  intro s hs
  unfold ksList at hs
  rw [List.mem_map] at hs
  obtain ⟨i, _, hi⟩ := hs
  rw [← hi]
  exact keystream_lt cid key iv i

theorem beq_gcm_auth_failed_zero :
    (MBEDTLS_ERR_GCM_AUTH_FAILED == (0 : Int)) = false := by decide

theorem beq_chachapoly_auth_failed_zero :
    (MBEDTLS_ERR_CHACHAPOLY_AUTH_FAILED == (0 : Int)) = false := by decide

theorem eraseTr_trace_free (c : CipherContextAEAD) :
    ∀ nc ∈ (eraseTr c).2,
      nc = NativeCall.gcm_free_call ∨ nc = NativeCall.chachapoly_free_call := by
  unfold eraseTr
  by_cases h : c.initialized <;> cases c.crypto_alg <;> simp [h]

/-!
The claims.
-/

/-- C3: on a native key-installation failure inside `init`, the error is
propagated and `initialized` stays false, but the partially constructed
backend is NOT torn down: after `mbedtls_gcm_init` a failing
`mbedtls_gcm_setkey` makes `init` throw with no `mbedtls_gcm_free` in the
trace, the GCM context still live, and `erase()` (hence the destructor) a
no-op on the resulting state, so the native resource is leaked.  This
evaluates the code at the failing input of the code_bug verdict. -/
theorem C3_setkey_failure_leaks_backend :
    (init ⟨-1, 0⟩ .AES_128_GCM (List.replicate 16 0) 16 0 freshCtx).err
        = some (.gcmSetkeyFailed (-1)) ∧
    (init ⟨-1, 0⟩ .AES_128_GCM (List.replicate 16 0) 16 0 freshCtx).ctx.initialized
        = false ∧
    (init ⟨-1, 0⟩ .AES_128_GCM (List.replicate 16 0) 16 0 freshCtx).ctx.gcm_ctx.live
        = true ∧
    (init ⟨-1, 0⟩ .AES_128_GCM (List.replicate 16 0) 16 0 freshCtx).trace
        = [.gcm_init_call, .gcm_setkey_call] ∧
    NativeCall.gcm_free_call
        ∉ (init ⟨-1, 0⟩ .AES_128_GCM (List.replicate 16 0) 16 0 freshCtx).trace ∧
    erase (init ⟨-1, 0⟩ .AES_128_GCM (List.replicate 16 0) 16 0 freshCtx).ctx
        = (init ⟨-1, 0⟩ .AES_128_GCM (List.replicate 16 0) 16 0 freshCtx).ctx := by
  decide

/-- C4: `is_supported` does return `ok true` on each member of the supported
set, but on an algorithm outside it the `default` case of `cipher_type`
throws `mbedtls_aead_error(": not usable")`, so `is_supported` propagates an
exception instead of returning `false`.  This evaluates the code at the
failing inputs of the code_bug verdict (the comparisons against
`MBEDTLS_CIPHER_ID_NONE` in `is_supported` and `init` are dead code showing
the intended return-`NONE` behavior). -/
theorem C4_is_supported_throws_on_unsupported :
    is_supported .AES_128_GCM = .ok true ∧
    is_supported .AES_192_GCM = .ok true ∧
    is_supported .AES_256_GCM = .ok true ∧
    is_supported .CHACHA20_POLY1305 = .ok true ∧
    is_supported .NONE = .error (.notUsable .NONE) ∧
    is_supported .AES_256_CBC = .error (.notUsable .AES_256_CBC) := by
  decide

/-- C5, counterexample to the claim as stated: on a context previously
initialized with AES-128-GCM, an `init` call with an undersized key does fail
with `InsufficientKeyMaterial`, but a native backend call
(`mbedtls_gcm_free`, from the initial `erase()`) IS made before the check, so
the key-material check does not occur strictly before every native backend
call. -/
theorem C5_counterexample :
    (init env0 .AES_128_GCM []  0 0
        (init env0 .AES_128_GCM (List.replicate 16 0) 16 0 freshCtx).ctx).err
      = some .insufficientKeyMaterial ∧
    (init env0 .AES_128_GCM []  0 0
        (init env0 .AES_128_GCM (List.replicate 16 0) 16 0 freshCtx).ctx).trace
      = [.gcm_free_call] ∧
    (init env0 .AES_128_GCM []  0 0
        (init env0 .AES_128_GCM (List.replicate 16 0) 16 0 freshCtx).ctx).trace
      ≠ [] := by
  decide

/-- C5, amended: for every supported algorithm and every `keysize` strictly
below the required key size, `init` fails with `InsufficientKeyMaterial`, and
the check occurs strictly before any native backend CONSTRUCTION call —
no context-init or key-installation call is made (so no backend state is
created); the only native calls that may precede the check are the teardown
frees of a previously initialized backend, issued by the initial
`erase()`. -/
theorem C5_insufficient_key_before_construction (env : NativeEnv)
    (alg : CryptoAlg) (key : List Nat) (ks : Nat) (mode : Int)
    (c : CipherContextAEAD) (cid : CipherId) (req : Nat)
    (hct : cipher_type alg = .ok (cid, req)) (hks : ks < req) :
    (init env alg key ks mode c).err = some .insufficientKeyMaterial ∧
    ∀ nc ∈ (init env alg key ks mode c).trace,
      nc = NativeCall.gcm_free_call ∨ nc = NativeCall.chachapoly_free_call := by
  have htr : (init env alg key ks mode c).trace
      = (eraseTr c).2 ++ (initCore env alg key ks (eraseTr c).1).trace := rfl
  have herr : (init env alg key ks mode c).err
      = (initCore env alg key ks (eraseTr c).1).err := rfl
  refine ⟨?_, ?_⟩
  · cases alg <;> simp [cipher_type] at hct <;>
      obtain ⟨hcid, hreq⟩ := hct <;> subst hcid <;> subst hreq <;>
      simp [herr, initCore, cipher_type, hks]
  · rw [htr]
    cases alg <;> simp [cipher_type] at hct <;>
      obtain ⟨hcid, hreq⟩ := hct <;> subst hcid <;> subst hreq <;>
      simp [initCore, cipher_type, hks] <;>
      exact eraseTr_trace_free c

/-- C5 witness: instantiation of the amended theorem at AES-256-GCM with a
31-byte key length on a fresh context. -/
theorem C5_witness :
    (init env0 .AES_256_GCM (List.replicate 31 0) 31 0 freshCtx).err
      = some .insufficientKeyMaterial := by
  exact (C5_insufficient_key_before_construction env0 .AES_256_GCM
    (List.replicate 31 0) 31 0 freshCtx .AES 32 rfl (by decide)).1

/-- C6: on a context whose `initialized` flag is unset, `encrypt` and
`decrypt` both throw `NotInitialized` ("uninitialized") and perform no native
cryptographic call; a freshly constructed context and any context after
teardown (`erase`) are in that state. -/
theorem C6_uninitialized_rejected (c : CipherContextAEAD)
    (h : c.initialized = false) (input iv ad : List Nat) (tag : Nat) :
    encrypt c input iv ad = (.error .uninitialized, []) ∧
    decrypt c input tag iv ad = (.error .uninitialized, []) ∧
    freshCtx.initialized = false ∧
    ∀ d : CipherContextAEAD, (erase d).initialized = false := by
  refine ⟨?_, ?_, rfl, ?_⟩
  · simp [encrypt, check_initialized, h]
  · simp [decrypt, check_initialized, h]
  · intro d
    unfold erase eraseTr
    by_cases hd : d.initialized <;> cases d.crypto_alg <;> simp [hd]

/-- C6 witness: the theorem applied to a fresh context with concrete
buffers. -/
theorem C6_witness :
    encrypt freshCtx [1, 2] (List.replicate 12 0) [] = (.error .uninitialized, []) :=
  (C6_uninitialized_rejected freshCtx rfl [1, 2] (List.replicate 12 0) [] 0).1

/-- C7: the embedded-tag `decrypt` of an initialized context throws the
`InvalidArgument`-kind error ("tag must be null for aead decrypt") whenever a
separate non-null `tag` argument is supplied together with the
tag-included-in-`input` convention, for every native outcome, input, length,
IV and associated data: it never silently prefers one tag source. -/
theorem C7_separate_tag_rejected (env : V1Env) (c : V1Ctx)
    (h : c.initialized = true) (input : List Nat) (length : Nat)
    (iv t ad : List Nat) :
    decrypt_v1 env c input length iv (some t) ad = .error .tagMustBeNull := by
  simp [decrypt_v1, h]

/-- C7 witness: concrete instantiation (initialized context, 16-byte zero tag
supplied separately). -/
theorem C7_witness :
    decrypt_v1 ⟨0, 4⟩ ⟨true⟩ (List.replicate 20 0) 20 (List.replicate 12 0)
      (some (List.replicate 16 0)) [] = .error .tagMustBeNull :=
  C7_separate_tag_rejected ⟨0, 4⟩ ⟨true⟩ rfl (List.replicate 20 0) 20
    (List.replicate 12 0) (List.replicate 16 0) []

/-- C9: the embedded-tag `decrypt` performs no validation that `length` is at
least `AUTH_TAG_LEN`: for every initialized context and every `length < 16`
the call reaches the native `mbedtls_cipher_auth_decrypt_ext` with an output
buffer size computed as `length - 16` in `size_t` arithmetic, i.e. wrapped to
`length + (2 ^ 64 - 16)`. -/
theorem C9_length_underflow_wraps (env : V1Env) (c : V1Ctx)
    (h : c.initialized = true) (input : List Nat) (length : Nat)
    (iv ad : List Nat) (hlen : length < 16) :
    decrypt_v1 env c input length iv none ad =
      .ok ((env.olen == length + (SIZE_T_MOD - 16)) && (env.status == 0),
        ⟨12, length, length + (SIZE_T_MOD - 16), 16⟩) := by
  have hM : SIZE_T_MOD = 18446744073709551616 := by norm_num [SIZE_T_MOD]
  have hsub : size_sub length 16 = length + (SIZE_T_MOD - 16) := by
    unfold size_sub
    rw [hM]
    omega
  simp [decrypt_v1, h, IV_LEN, AUTH_TAG_LEN, hsub]

/-- C9 witness: a 5-byte `length` wraps to `5 + 2 ^ 64 - 16`. -/
theorem C9_witness :
    decrypt_v1 ⟨0, 0⟩ ⟨true⟩ (List.replicate 5 0) 5 (List.replicate 12 0)
        none [] =
      .ok ((0 == 5 + (SIZE_T_MOD - 16) : Bool) && true,
        ⟨12, 5, 5 + (SIZE_T_MOD - 16), 16⟩) := by
  have h := C9_length_underflow_wraps ⟨0, 0⟩ ⟨true⟩ rfl (List.replicate 5 0) 5
    (List.replicate 12 0) [] (by decide)
  simpa using h

/-- C2: for every supported algorithm, every key of exactly the required
size, every 12-byte IV, every associated data (including empty) and every
plaintext (including empty), on a context successfully initialized with that
algorithm and key, decrypting the ciphertext/tag pair `encrypt` produced —
with the same IV and associated data — succeeds (the source's `bool` is
`true`) and returns the original plaintext. -/
theorem C2_encrypt_decrypt_roundtrip (env : NativeEnv) (alg : CryptoAlg)
    (key : List Nat) (ks : Nat) (mode : Int) (cid : CipherId) (req : Nat)
    (hct : cipher_type alg = .ok (cid, req)) (hkey : key.length = req)
    (pt iv ad : List Nat) (hiv : iv.length = 12)
    (s : CipherContextAEAD) (tr tr2 : List NativeCall) (ct : List Nat)
    (tag : Nat)
    (hinit : init env alg key ks mode freshCtx = ⟨s, none, tr⟩)
    (henc : encrypt s pt iv ad = (.ok (ct, tag), tr2)) :
    (decrypt s ct tag iv ad).1 = .ok (true, some pt) := by
  rcases init_fresh_ok_cases env alg key ks mode s tr hinit with
      ⟨halg, hks, hst, hs, htr⟩ | ⟨halg, hks, hst, hs, htr⟩ |
      ⟨halg, hks, hst, hs, htr⟩ | ⟨halg, hks, hst, hs, htr⟩ <;>
    subst halg <;> subst hs <;>
    simp [encrypt, check_initialized, gcmState, chachaState, gcm_encrypt,
      chachapoly_encrypt, mbedtls_gcm_crypt_and_tag,
      mbedtls_chachapoly_encrypt_and_tag] at henc <;>
    obtain ⟨⟨hc1, hc2⟩, -⟩ := henc <;> rw [← hc1, ← hc2] <;>
    simp [decrypt, check_initialized, gcmState, chachaState, gcm_decrypt,
      chachapoly_decrypt, mbedtls_gcm_auth_decrypt,
      mbedtls_chachapoly_auth_decrypt, streamXor_streamXor]

/-- C2 witness helper: the context initialized with AES-128-GCM and an
all-zero 16-byte key. -/
def w2_s : CipherContextAEAD :=
  (init env0 .AES_128_GCM (List.replicate 16 0) 16 0 freshCtx).ctx

/-- C2 witness helper: the ciphertext/tag pair `encrypt` produces on `w2_s`
for plaintext "hi", an all-zero 12-byte IV and associated data `[3]`. -/
def w2_out : List Nat × Nat :=
  match (encrypt w2_s [104, 105] (List.replicate 12 0) [3]).1 with
  | .ok p => p
  | .error _ => ([], 0)

/-- C2 witness: the round trip at the concrete instance. -/
theorem C2_witness :
    (decrypt w2_s w2_out.1 w2_out.2 (List.replicate 12 0) [3]).1
      = .ok (true, some [104, 105]) :=
  C2_encrypt_decrypt_roundtrip env0 .AES_128_GCM (List.replicate 16 0) 16 0
    .AES 16 rfl (by decide) [104, 105] (List.replicate 12 0) [3] (by decide)
    w2_s [.gcm_init_call, .gcm_setkey_call] [.gcm_crypt_and_tag_call]
    w2_out.1 w2_out.2 (by decide) (by decide)

/-- C10: `encrypt` is deterministic — the context sources no randomness.  Two
contexts produced by successful `init` calls with the same algorithm, key and
key length (under possibly different native environments and modes) give
byte-identical ciphertext and tag on identical `input`, `iv` and `ad`. -/
theorem C10_encrypt_deterministic (env1 env2 : NativeEnv) (alg : CryptoAlg)
    (key : List Nat) (ks : Nat) (mode1 mode2 : Int)
    (s1 s2 : CipherContextAEAD) (tr1 tr2 : List NativeCall)
    (input iv ad : List Nat)
    (h1 : init env1 alg key ks mode1 freshCtx = ⟨s1, none, tr1⟩)
    (h2 : init env2 alg key ks mode2 freshCtx = ⟨s2, none, tr2⟩) :
    encrypt s1 input iv ad = encrypt s2 input iv ad := by
  rcases init_fresh_ok_cases env1 alg key ks mode1 s1 tr1 h1 with
      ⟨ha, -, -, hs, -⟩ | ⟨ha, -, -, hs, -⟩ | ⟨ha, -, -, hs, -⟩ | ⟨ha, -, -, hs, -⟩ <;>
    rcases init_fresh_ok_cases env2 alg key ks mode2 s2 tr2 h2 with
      ⟨hb, -, -, hs2, -⟩ | ⟨hb, -, -, hs2, -⟩ | ⟨hb, -, -, hs2, -⟩ | ⟨hb, -, -, hs2, -⟩ <;>
    subst ha <;> (try cases hb) <;> rw [hs, hs2]

/-- C10 witness: two AES-256-GCM contexts from different native environments
(both succeeding) encrypt `[1]` identically. -/
theorem C10_witness :
    encrypt (init env0 .AES_256_GCM (List.replicate 32 0) 32 0 freshCtx).ctx
        [1] (List.replicate 12 0) [] =
      encrypt (init ⟨7, 0⟩ .AES_256_GCM (List.replicate 32 0) 32 1 freshCtx).ctx
        [1] (List.replicate 12 0) [] :=
  C10_encrypt_deterministic env0 ⟨7, 0⟩ .AES_256_GCM (List.replicate 32 0) 32
    0 1 (init env0 .AES_256_GCM (List.replicate 32 0) 32 0 freshCtx).ctx
    (init ⟨7, 0⟩ .AES_256_GCM (List.replicate 32 0) 32 1 freshCtx).ctx
    [.gcm_init_call, .gcm_setkey_call] [.gcm_init_call, .gcm_setkey_call]
    [1] (List.replicate 12 0) [] (by decide) (by decide)

theorem tagFun_flip_ct_ne (cid : CipherId) (k iv c ad : List Nat)
    (hc : ∀ b ∈ c, b < 256) (i j : Nat) (hi : i < c.length) (hj : j < 8) :
    tagFun cid k iv c ad ≠ tagFun cid k iv (flipByte c i j) ad :=
  Ne.symm (tagFun_ne_of_ct_ne cid k iv (flipByte c i j) c ad
    (flipByte_length c i j) (flipByte_bytes_lt c i j hj hc) hc
    (flipByte_ne c i j hi))

theorem tagFun_flip_ad_ne (cid : CipherId) (k iv c ad : List Nat)
    (had : ∀ b ∈ ad, b < 256) (i j : Nat) (hi : i < ad.length) (hj : j < 8) :
    tagFun cid k iv c ad ≠ tagFun cid k iv c (flipByte ad i j) :=
  tagFun_ne_of_ad_ne cid k iv c ad (flipByte ad i j)
    (flipByte_length ad i j).symm had (flipByte_bytes_lt ad i j hj had)
    (Ne.symm (flipByte_ne ad i j hi))

theorem decrypt_gcmState_neg (alg : CryptoAlg) (key : List Nat) (n : Nat)
    (input : List Nat) (tag : Nat) (iv ad : List Nat)
    (h : tag ≠ tagFun .AES (key.take n) iv input ad) :
    (decrypt (gcmState alg key n) input tag iv ad).1 = .ok (false, none) := by
  simp [decrypt, check_initialized, gcmState, gcm_decrypt,
    mbedtls_gcm_auth_decrypt, h, beq_gcm_auth_failed_zero]

theorem decrypt_chachaState_neg (key : List Nat) (input : List Nat) (tag : Nat)
    (iv ad : List Nat)
    (h : tag ≠ tagFun .CHACHA20 (key.take 32) iv input ad) :
    (decrypt (chachaState key) input tag iv ad).1 = .ok (false, none) := by
  simp [decrypt, check_initialized, chachaState, chachapoly_decrypt,
    mbedtls_chachapoly_auth_decrypt, h, beq_chachapoly_auth_failed_zero]

theorem decrypt_gcmState_no_plain (alg : CryptoAlg) (key : List Nat) (n : Nat)
    (input : List Nat) (tag : Nat) (iv ad : List Nat)
    (r : Bool × Option (List Nat)) (tr : List NativeCall)
    (h : decrypt (gcmState alg key n) input tag iv ad = (.ok r, tr))
    (hr : r.1 = false) : r.2 = none := by
  by_cases hc : tag = tagFun .AES (key.take n) iv input ad <;>
    simp [decrypt, check_initialized, gcmState, gcm_decrypt,
      mbedtls_gcm_auth_decrypt, hc, beq_gcm_auth_failed_zero] at h <;>
    obtain ⟨h1, -⟩ := h <;> rw [← h1] at hr ⊢ <;> simp_all

theorem decrypt_chachaState_no_plain (key : List Nat) (input : List Nat)
    (tag : Nat) (iv ad : List Nat) (r : Bool × Option (List Nat))
    (tr : List NativeCall)
    (h : decrypt (chachaState key) input tag iv ad = (.ok r, tr))
    (hr : r.1 = false) : r.2 = none := by
  by_cases hc : tag = tagFun .CHACHA20 (key.take 32) iv input ad <;>
    simp [decrypt, check_initialized, chachaState, chachapoly_decrypt,
      mbedtls_chachapoly_auth_decrypt, hc, beq_chachapoly_auth_failed_zero] at h <;>
    obtain ⟨h1, -⟩ := h <;> rw [← h1] at hr ⊢ <;> simp_all

theorem C1_core_gcm (alg : CryptoAlg) (key : List Nat) (n : Nat)
    (iv pt ad : List Nat) (hpt : ∀ b ∈ pt, b < 256)
    (had : ∀ b ∈ ad, b < 256) :
    (∀ i j, i < (streamXor .AES (key.take n) iv pt).length → j < 8 →
        (decrypt (gcmState alg key n)
          (flipByte (streamXor .AES (key.take n) iv pt) i j)
          (tagFun .AES (key.take n) iv (streamXor .AES (key.take n) iv pt) ad)
          iv ad).1 = .ok (false, none)) ∧
    (∀ j, (decrypt (gcmState alg key n) (streamXor .AES (key.take n) iv pt)
        (flipNat
          (tagFun .AES (key.take n) iv (streamXor .AES (key.take n) iv pt) ad)
          j)
        iv ad).1 = .ok (false, none)) ∧
    (∀ i j, i < ad.length → j < 8 →
        (decrypt (gcmState alg key n) (streamXor .AES (key.take n) iv pt)
          (tagFun .AES (key.take n) iv (streamXor .AES (key.take n) iv pt) ad)
          iv (flipByte ad i j)).1 = .ok (false, none)) ∧
    (∀ input2 tag2 iv2 ad2 r tr3,
        decrypt (gcmState alg key n) input2 tag2 iv2 ad2 = (.ok r, tr3) →
          r.1 = false → r.2 = none) := by
  have hcb : ∀ b ∈ streamXor .AES (key.take n) iv pt, b < 256 :=
    streamXor_bytes_lt .AES (key.take n) iv pt hpt
  refine ⟨?_, ?_, ?_, ?_⟩
  · intro i j hi hj
    exact decrypt_gcmState_neg alg key n _ _ iv ad
      (tagFun_flip_ct_ne .AES (key.take n) iv _ ad hcb i j hi hj)
  · intro j
    exact decrypt_gcmState_neg alg key n _ _ iv ad (flipNat_ne _ j)
  · intro i j hi hj
    exact decrypt_gcmState_neg alg key n _ _ iv (flipByte ad i j)
      (tagFun_flip_ad_ne .AES (key.take n) iv _ ad had i j hi hj)
  · intro input2 tag2 iv2 ad2 r tr3 h hr
    exact decrypt_gcmState_no_plain alg key n input2 tag2 iv2 ad2 r tr3 h hr

theorem C1_core_chacha (key : List Nat) (iv pt ad : List Nat)
    (hpt : ∀ b ∈ pt, b < 256) (had : ∀ b ∈ ad, b < 256) :
    (∀ i j, i < (streamXor .CHACHA20 (key.take 32) iv pt).length → j < 8 →
        (decrypt (chachaState key)
          (flipByte (streamXor .CHACHA20 (key.take 32) iv pt) i j)
          (tagFun .CHACHA20 (key.take 32) iv
            (streamXor .CHACHA20 (key.take 32) iv pt) ad)
          iv ad).1 = .ok (false, none)) ∧
    (∀ j, (decrypt (chachaState key) (streamXor .CHACHA20 (key.take 32) iv pt)
        (flipNat
          (tagFun .CHACHA20 (key.take 32) iv
            (streamXor .CHACHA20 (key.take 32) iv pt) ad)
          j)
        iv ad).1 = .ok (false, none)) ∧
    (∀ i j, i < ad.length → j < 8 →
        (decrypt (chachaState key) (streamXor .CHACHA20 (key.take 32) iv pt)
          (tagFun .CHACHA20 (key.take 32) iv
            (streamXor .CHACHA20 (key.take 32) iv pt) ad)
          iv (flipByte ad i j)).1 = .ok (false, none)) ∧
    (∀ input2 tag2 iv2 ad2 r tr3,
        decrypt (chachaState key) input2 tag2 iv2 ad2 = (.ok r, tr3) →
          r.1 = false → r.2 = none) := by
  have hcb : ∀ b ∈ streamXor .CHACHA20 (key.take 32) iv pt, b < 256 :=
    streamXor_bytes_lt .CHACHA20 (key.take 32) iv pt hpt
  refine ⟨?_, ?_, ?_, ?_⟩
  · intro i j hi hj
    exact decrypt_chachaState_neg key _ _ iv ad
      (tagFun_flip_ct_ne .CHACHA20 (key.take 32) iv _ ad hcb i j hi hj)
  · intro j
    exact decrypt_chachaState_neg key _ _ iv ad (flipNat_ne _ j)
  · intro i j hi hj
    exact decrypt_chachaState_neg key _ _ iv (flipByte ad i j)
      (tagFun_flip_ad_ne .CHACHA20 (key.take 32) iv _ ad had i j hi hj)
  · intro input2 tag2 iv2 ad2 r tr3 h hr
    exact decrypt_chachaState_no_plain key input2 tag2 iv2 ad2 r tr3 h hr

/-- C1: on a context successfully initialized with any supported algorithm,
for a ciphertext/tag pair produced by `encrypt` (bytes of plaintext and
associated data being bytes, i.e. `< 256`), flipping any single bit of the
ciphertext, of the tag, or of the associated data makes `decrypt` report
authentication failure (the source's `bool` is `false`) with no plaintext
released; and on no input does `decrypt` release plaintext together with the
failure result. -/
theorem C1_single_bit_flip_fails (env : NativeEnv) (alg : CryptoAlg)
    (key : List Nat) (ks : Nat) (mode : Int) (pt iv ad : List Nat)
    (hpt : ∀ b ∈ pt, b < 256) (had : ∀ b ∈ ad, b < 256)
    (s : CipherContextAEAD) (tr tr2 : List NativeCall) (ct : List Nat)
    (tag : Nat)
    (hinit : init env alg key ks mode freshCtx = ⟨s, none, tr⟩)
    (henc : encrypt s pt iv ad = (.ok (ct, tag), tr2)) :
    (∀ i j, i < ct.length → j < 8 →
        (decrypt s (flipByte ct i j) tag iv ad).1 = .ok (false, none)) ∧
    (∀ j, (decrypt s ct (flipNat tag j) iv ad).1 = .ok (false, none)) ∧
    (∀ i j, i < ad.length → j < 8 →
        (decrypt s ct tag iv (flipByte ad i j)).1 = .ok (false, none)) ∧
    (∀ input2 tag2 iv2 ad2 r tr3,
        decrypt s input2 tag2 iv2 ad2 = (.ok r, tr3) → r.1 = false →
          r.2 = none) := by
  rcases init_fresh_ok_cases env alg key ks mode s tr hinit with
      ⟨halg, hks, hst, hs, htr⟩ | ⟨halg, hks, hst, hs, htr⟩ |
      ⟨halg, hks, hst, hs, htr⟩ | ⟨halg, hks, hst, hs, htr⟩ <;>
    subst halg <;> subst hs <;>
    simp [encrypt, check_initialized, gcmState, chachaState, gcm_encrypt,
      chachapoly_encrypt, mbedtls_gcm_crypt_and_tag,
      mbedtls_chachapoly_encrypt_and_tag] at henc <;>
    obtain ⟨⟨hc1, hc2⟩, -⟩ := henc <;> rw [← hc1, ← hc2] <;>
    first
      | exact C1_core_gcm _ key 16 iv pt ad hpt had
      | exact C1_core_gcm _ key 24 iv pt ad hpt had
      | exact C1_core_gcm _ key 32 iv pt ad hpt had
      | exact C1_core_chacha key iv pt ad hpt had

/-- C1 witness helper: a context initialized with ChaCha20-Poly1305. -/
def w1_s : CipherContextAEAD :=
  (init env0 .CHACHA20_POLY1305 (List.replicate 32 1) 32 0 freshCtx).ctx

/-- C1 witness helper: the ciphertext/tag pair for plaintext `[7]`, IV of
twelve 2-bytes and associated data `[9]`. -/
def w1_out : List Nat × Nat :=
  match (encrypt w1_s [7] (List.replicate 12 2) [9]).1 with
  | .ok p => p
  | .error _ => ([], 0)

/-- C1 witness: flipping bit 1 of ciphertext byte 0 makes `decrypt` fail with
no plaintext. -/
theorem C1_witness :
    (decrypt w1_s (flipByte w1_out.1 0 1) w1_out.2 (List.replicate 12 2)
      [9]).1 = .ok (false, none) :=
  (C1_single_bit_flip_fails env0 .CHACHA20_POLY1305 (List.replicate 32 1) 32 0
    [7] (List.replicate 12 2) [9] (by decide) (by decide) w1_s
    [.chachapoly_init_call, .chachapoly_setkey_call]
    [.chachapoly_encrypt_and_tag_call] w1_out.1 w1_out.2 (by decide)
    (by decide)).1 0 1 (by decide) (by decide)

theorem initCore_indep (env : NativeEnv) (alg : CryptoAlg) (key : List Nat)
    (ks : Nat) (d1 d2 : CipherContextAEAD)
    (hg : d1.gcm_ctx = d2.gcm_ctx) (hp : d1.chachapoly_ctx = d2.chachapoly_ctx)
    (hi : d1.initialized = d2.initialized) :
    (initCore env alg key ks d1).err = (initCore env alg key ks d2).err ∧
    (initCore env alg key ks d1).trace = (initCore env alg key ks d2).trace ∧
    ((initCore env alg key ks d1).err = none →
      (initCore env alg key ks d1).ctx = (initCore env alg key ks d2).ctx) := by
  obtain ⟨i1, g1, p1, a1, dp1⟩ := d1
  obtain ⟨i2, g2, p2, a2, dp2⟩ := d2
  simp only [] at hg hp hi
  subst hg
  subst hp
  subst hi
  cases alg <;>
    simp [initCore, cipher_type, mbedtls_gcm_init, mbedtls_gcm_setkey,
      mbedtls_chachapoly_init, mbedtls_chachapoly_setkey] <;>
    split_ifs <;> simp_all

theorem init_vs_fresh (env : NativeEnv) (alg : CryptoAlg) (key : List Nat)
    (ks : Nat) (mode : Int) (s : CipherContextAEAD)
    (hg : (eraseTr s).1.gcm_ctx = {}) (hp : (eraseTr s).1.chachapoly_ctx = {})
    (hi : (eraseTr s).1.initialized = false) :
    (init env alg key ks mode s).err = (init env alg key ks mode freshCtx).err ∧
    ((init env alg key ks mode s).err = none →
      (init env alg key ks mode s).ctx = (init env alg key ks mode freshCtx).ctx) ∧
    (init env alg key ks mode s).trace
      = (eraseTr s).2 ++ (init env alg key ks mode freshCtx).trace := by
  obtain ⟨h1, h2, h3⟩ := initCore_indep env alg key ks (eraseTr s).1 freshCtx
    (by simpa [freshCtx] using hg) (by simpa [freshCtx] using hp)
    (by simpa [freshCtx] using hi)
  exact ⟨h1, h3, congrArg ((eraseTr s).2 ++ ·) h2⟩

/-- C8: teardown is safe in every state — `erase` is a no-op on a context
whose `initialized` flag is unset; the destructor is exactly `erase`; and
`init` on a previously (successfully) initialized context first frees that
backend (the nonempty `eraseTr` trace prefix) and then behaves exactly as on
a fresh context: it throws the same error, performs the same native
construction calls, and on success produces the identical state. -/
theorem C8_teardown_safe_reinit_fresh (c : CipherContextAEAD)
    (hc : c.initialized = false) (env : NativeEnv) (alg1 : CryptoAlg)
    (key1 : List Nat) (ks1 : Nat) (alg2 : CryptoAlg) (key2 : List Nat)
    (ks2 : Nat) (mode : Int) (s1 : CipherContextAEAD) (tr1 : List NativeCall)
    (hinit : init env alg1 key1 ks1 mode freshCtx = ⟨s1, none, tr1⟩) :
    erase c = c ∧
    (∀ d, destruct d = erase d) ∧
    (init env alg2 key2 ks2 mode s1).err
      = (init env alg2 key2 ks2 mode freshCtx).err ∧
    ((init env alg2 key2 ks2 mode s1).err = none →
      (init env alg2 key2 ks2 mode s1).ctx
        = (init env alg2 key2 ks2 mode freshCtx).ctx) ∧
    (init env alg2 key2 ks2 mode s1).trace
      = (eraseTr s1).2 ++ (init env alg2 key2 ks2 mode freshCtx).trace ∧
    (eraseTr s1).2 ≠ [] := by
  have hera : erase c = c := by
    unfold erase eraseTr
    simp [hc]
  rcases init_fresh_ok_cases env alg1 key1 ks1 mode s1 tr1 hinit with
      ⟨halg, -, -, hs, -⟩ | ⟨halg, -, -, hs, -⟩ |
      ⟨halg, -, -, hs, -⟩ | ⟨halg, -, -, hs, -⟩
  · subst halg; subst hs
    obtain ⟨h1, h2, h3⟩ := init_vs_fresh env alg2 key2 ks2 mode
      (gcmState .AES_128_GCM key1 16)
      (by simp [eraseTr, gcmState, mbedtls_gcm_free])
      (by simp [eraseTr, gcmState, mbedtls_gcm_free])
      (by simp [eraseTr, gcmState])
    exact ⟨hera, fun d => rfl, h1, h2, h3, by simp [eraseTr, gcmState]⟩
  · subst halg; subst hs
    obtain ⟨h1, h2, h3⟩ := init_vs_fresh env alg2 key2 ks2 mode
      (gcmState .AES_192_GCM key1 24)
      (by simp [eraseTr, gcmState, mbedtls_gcm_free])
      (by simp [eraseTr, gcmState, mbedtls_gcm_free])
      (by simp [eraseTr, gcmState])
    exact ⟨hera, fun d => rfl, h1, h2, h3, by simp [eraseTr, gcmState]⟩
  · subst halg; subst hs
    obtain ⟨h1, h2, h3⟩ := init_vs_fresh env alg2 key2 ks2 mode
      (gcmState .AES_256_GCM key1 32)
      (by simp [eraseTr, gcmState, mbedtls_gcm_free])
      (by simp [eraseTr, gcmState, mbedtls_gcm_free])
      (by simp [eraseTr, gcmState])
    exact ⟨hera, fun d => rfl, h1, h2, h3, by simp [eraseTr, gcmState]⟩
  · subst halg; subst hs
    obtain ⟨h1, h2, h3⟩ := init_vs_fresh env alg2 key2 ks2 mode
      (chachaState key1)
      (by simp [eraseTr, chachaState, mbedtls_chachapoly_free])
      (by simp [eraseTr, chachaState, mbedtls_chachapoly_free])
      (by simp [eraseTr, chachaState])
    exact ⟨hera, fun d => rfl, h1, h2, h3, by simp [eraseTr, chachaState]⟩

/-- C8 witness: re-initializing an AES-128-GCM context with
ChaCha20-Poly1305 throws the same (no) error as initializing a fresh context
with ChaCha20-Poly1305. -/
theorem C8_witness :
    (init env0 .CHACHA20_POLY1305 (List.replicate 32 0) 32 0
        (init env0 .AES_128_GCM (List.replicate 16 0) 16 0 freshCtx).ctx).err
      = (init env0 .CHACHA20_POLY1305 (List.replicate 32 0) 32 0 freshCtx).err :=
  (C8_teardown_safe_reinit_fresh freshCtx rfl env0 .AES_128_GCM
    (List.replicate 16 0) 16 .CHACHA20_POLY1305 (List.replicate 32 0) 32 0
    (init env0 .AES_128_GCM (List.replicate 16 0) 16 0 freshCtx).ctx
    [.gcm_init_call, .gcm_setkey_call] (by decide)).2.2.1

end MbedTLSCrypto
